import Mathlib

/-!
Shallow embedding of the `typenat` module of the `multi_array` crate
(src/src/typenat.rs), together with theorems about its behaviour.

The Rust code defines type-level natural numbers `N0` and `Suc<T>`, a
`Nat` trait giving each numeral a runtime `value()` and an associated
fixed-length array type `IxArray = [usize; n]`, a `USIndex` trait with
checked (`us_index`, `us_index_mut`) and unchecked (`us_index_unchecked`,
`us_index_unchecked_mut`) accessors on those arrays, and a `PosNat` trait
whose associated type `Pre` is the predecessor of a positive numeral.

Modelling conventions:
- Type-level numerals become terms of the inductive `TypeNat`.
- A `[usize; L]` value becomes a function `Fin L → Nat` (`IxStorage L`).
- A checked accessor that can panic returns an `Option`; `none` is the
  panic outcome.
- A shared reference `&usize` is modelled by the value it points to; a
  mutable reference `&mut usize` into the storage is modelled by the slot
  it designates, a `Fin L`; writing through it is `Function.update`.
- `get_unchecked` / `get_unchecked_mut` demand their documented
  precondition `index < L` as a proof argument; outside that precondition
  the Rust operation is undefined behaviour and is not modelled.
-/

namespace MultiArray

/-- Type-level natural numbers: the Rust types `N0` and `Suc<T>`
(src/src/typenat.rs lines 61-66). A Rust type built from these
constructors is modelled as a term of this inductive type. -/
inductive TypeNat where
  | N0 : TypeNat
  | Suc : TypeNat → TypeNat
deriving DecidableEq

/-- The `value()` method of the `Nat` trait. The impl for `N0` returns
`0` (line 71); each macro-generated impl for `Suc<pre>` returns the
literal that is one more than the value of `pre` (lines 93-133, table at
lines 125-133). -/
def value : TypeNat → Nat
  | .N0 => 0
  | .Suc t => value t + 1

/-- Length of the associated `IxArray` type. The impl for `N0` picks
`[usize; 0]` (line 69); each macro-generated impl for `Suc<pre>` picks
`[usize; n]` where `n` is one more than the length picked for `pre`
(line 98 and the table at lines 125-133). -/
def ixArraySize : TypeNat → Nat
  | .N0 => 0
  | .Suc t => ixArraySize t + 1

/-- The numeral denoting `k`: `N0` for `0`, `Suc` of the numeral for
`k - 1` otherwise. `Numeral k` for `k ≤ 32` is exactly the crate's alias
`Nk`. -/
def Numeral : Nat → TypeNat
  | 0 => .N0
  | k + 1 => .Suc (Numeral k)

/-- Alias `N0` exported by the crate. -/
def N0 : TypeNat := .N0

/-- Alias `N1 = Suc<N0>` from the macro table. -/
def N1 : TypeNat := .Suc N0

/-- Alias `N2 = Suc<N1>` from the macro table. -/
def N2 : TypeNat := .Suc N1

/-- Alias `N3 = Suc<N2>` from the macro table. -/
def N3 : TypeNat := .Suc N2

/-- Alias `N4 = Suc<N3>` from the macro table. -/
def N4 : TypeNat := .Suc N3

/-- Alias `N5 = Suc<N4>` from the macro table. -/
def N5 : TypeNat := .Suc N4

/-- Alias `N31`, obtained by iterating the macro step. -/
def N31 : TypeNat := Numeral 31

/-- Alias `N32 = Suc<N31>` from the macro table. -/
def N32 : TypeNat := .Suc N31

/-- A `[usize; L]` value: one `usize` per position. -/
def IxStorage (L : Nat) : Type := Fin L → Nat

/-- The associated type `IxArray` of a numeral: the `usize` array whose
length is the one picked by the numeral's `Nat` impl. -/
def IxArray (t : TypeNat) : Type := IxStorage (ixArraySize t)

/-- The `Pre` associated type of the `PosNat` trait. The only impl is
`PosNat for Suc<T>` with `Pre = T` (lines 135-137); `N0` has no impl, so
`pre` of `N0` is `none`. -/
def pre : TypeNat → Option TypeNat
  | .N0 => none
  | .Suc t => some t

/-- Checked read `us_index`. The impl for `[usize; 0]` unconditionally
panics (lines 74-78); the impls for `[usize; L]`, `1 ≤ L ≤ 32`, return
`&self[index]` (lines 104-106), which panics when `index ≥ L`. A panic
is `none`; the value behind the returned reference is `some`. -/
def us_index {L : Nat} (a : IxStorage L) (index : Nat) : Option Nat :=
  if L = 0 then none
  else if h : index < L then some (a ⟨index, h⟩) else none

/-- Checked mutable borrow `us_index_mut`. The impl for `[usize; 0]`
unconditionally panics (lines 79-82); the impls for `[usize; L]`,
`1 ≤ L ≤ 32`, return `&mut self[index]` (lines 107-110), which panics
when `index ≥ L`. The returned mutable reference is modelled by the slot
it points to. -/
def us_index_mut {L : Nat} (a : IxStorage L) (index : Nat) : Option (Fin L) :=
  if L = 0 then none
  else if h : index < L then some ⟨index, h⟩ else none

/-- Unchecked read `us_index_unchecked` = `self.get_unchecked(index)`
(lines 84-86 and 111-114). Defined only under its documented
precondition `index < L`. -/
def us_index_unchecked {L : Nat} (a : IxStorage L) (index : Nat)
(h : index < L) : Nat :=
  a ⟨index, h⟩

/-- Unchecked mutable borrow `us_index_unchecked_mut` =
`self.get_unchecked_mut(index)` (lines 87-90 and 115-119). Defined only
under its documented precondition `index < L`; the returned mutable
reference is modelled by the slot it points to. -/
def us_index_unchecked_mut {L : Nat} (_a : IxStorage L) (index : Nat)
(h : index < L) : Fin L :=
  ⟨index, h⟩

/-- Writing a value through a mutable reference obtained from
`us_index_mut` or `us_index_unchecked_mut`: the storage is updated at
the slot the reference designates. -/
def writeRef {L : Nat} (a : IxStorage L) (r : Fin L) (v : Nat) : IxStorage L :=
  Function.update a r v

/-- Reading the storage at a slot (dereferencing a shared or mutable
reference into it). -/
def readAt {L : Nat} (a : IxStorage L) (r : Fin L) : Nat := a r

theorem value_numeral (k : Nat) : value (Numeral k) = k := by
  induction k with
  | zero => rfl
  | succ n ih => simp [Numeral, value, ih]

theorem ixArraySize_numeral (k : Nat) : ixArraySize (Numeral k) = k := by
  induction k with
  | zero => rfl
  | succ n ih => simp [Numeral, ixArraySize, ih]

/-- C1: for every k in [0,32], `value()` of `Numeral(k)` returns exactly
k as an unsigned integer. -/
theorem numeral_value_eq (k : Nat) (hk : k ≤ 32) : value (Numeral k) = k :=
  value_numeral k

/-- Witness for C1 at k = 32. -/
theorem numeral_value_eq_witness : 32 ≤ 32 ∧ value (Numeral 32) = 32 :=
  ⟨by decide, numeral_value_eq 32 (by decide)⟩

/-- C2: for every length L in [1,32] and index i with i < L, the checked
accessor `us_index` and the unchecked accessor `us_index_unchecked` on
the same storage return the same stored value at position i. -/
theorem checked_unchecked_agree (L : Nat) (h1 : 1 ≤ L) (h2 : L ≤ 32)
(a : IxStorage L) (i : Nat) (hi : i < L) :
    us_index a i = some (us_index_unchecked a i hi) := by
  have hL : L ≠ 0 := by omega
  simp [us_index, us_index_unchecked, hL, hi]

/-- Witness for C2 at L = 3, i = 1, on the storage sending every slot to
its position. -/
theorem checked_unchecked_agree_witness :
    (1 ≤ 3 ∧ 3 ≤ 32 ∧ 1 < 3) ∧
      us_index (fun p : Fin 3 => p.val) 1 =
        some (us_index_unchecked (fun p : Fin 3 => p.val) 1 (by decide)) :=
  ⟨by decide,
   checked_unchecked_agree 3 (by decide) (by decide)
     (fun p : Fin 3 => p.val) 1 (by decide)⟩

/-- C3: on a length-0 storage, the checked accessors `us_index` and
`us_index_mut` panic for every index; they never return a value or a
reference. -/
theorem zero_len_checked_panics (a : IxStorage 0) (index : Nat) :
    us_index a index = none ∧ us_index_mut a index = none := by
  simp [us_index, us_index_mut]

/-- C4: for every length L in [1,32], `us_index` and `us_index_mut` panic
exactly when the index is out of range (index ≥ L); for an in-range index
they return the reference to the element at that index. -/
theorem checked_fail_iff (L : Nat) (h1 : 1 ≤ L) (h2 : L ≤ 32)
(a : IxStorage L) (i : Nat) :
    (us_index a i = none ↔ L ≤ i) ∧
    (us_index_mut a i = none ↔ L ≤ i) ∧
    (∀ h : i < L,
      us_index a i = some (a ⟨i, h⟩) ∧ us_index_mut a i = some ⟨i, h⟩) := by
  have hL : L ≠ 0 := by omega
  refine ⟨?_, ?_, ?_⟩
  · simp [us_index, hL]
  · simp [us_index_mut, hL]
  · intro h
    simp [us_index, us_index_mut, hL, h]

/-- Witness for C4 at L = 2, i = 1. -/
theorem checked_fail_iff_witness :
    (1 ≤ 2 ∧ 2 ≤ 32) ∧
      ((us_index (fun _ : Fin 2 => 9) 1 = none ↔ 2 ≤ 1) ∧
       (us_index_mut (fun _ : Fin 2 => 9) 1 = none ↔ 2 ≤ 1) ∧
       (∀ h : 1 < 2,
         us_index (fun _ : Fin 2 => 9) 1 = some 9 ∧
           us_index_mut (fun _ : Fin 2 => 9) 1 = some ⟨1, h⟩)) :=
  ⟨by decide, checked_fail_iff 2 (by decide) (by decide) (fun _ => 9) 1⟩

/-- C5: for every k in [1,32], the `Pre` associated type of `Numeral(k)`
resolves to `Numeral(k-1)`, and `value()` on that predecessor returns
k - 1. -/
theorem pre_numeral_value (k : Nat) (h1 : 1 ≤ k) (h2 : k ≤ 32) :
    pre (Numeral k) = some (Numeral (k - 1)) ∧
      value (Numeral (k - 1)) = k - 1 := by
  match k, h1 with
  | m + 1, _ =>
    exact ⟨rfl, value_numeral m⟩

/-- Witness for C5 at k = 5. -/
theorem pre_numeral_value_witness :
    (1 ≤ 5 ∧ 5 ≤ 32) ∧
      (pre (Numeral 5) = some (Numeral 4) ∧ value (Numeral 4) = 4) :=
  ⟨by decide, pre_numeral_value 5 (by decide) (by decide)⟩

/-- C6: round-trip of rank arithmetic. For k in [1,32], the predecessor
of `Numeral(k)` exists and its successor has `value()` equal to k; for
k in [0,31], the predecessor of the successor of `Numeral(k)` is
`Numeral(k)` itself, whose `value()` is k. -/
theorem rank_roundtrip (k : Nat) :
    (1 ≤ k → k ≤ 32 →
      ∃ t, pre (Numeral k) = some t ∧ value (TypeNat.Suc t) = k) ∧
    (k ≤ 31 →
      pre (TypeNat.Suc (Numeral k)) = some (Numeral k) ∧
        value (Numeral k) = k) := by
  constructor
  · intro h1 h2
    match k, h1 with
    | m + 1, _ =>
      exact ⟨Numeral m, rfl, by simp [value, value_numeral]⟩
  · intro h
    exact ⟨rfl, value_numeral k⟩

/-- Witness for C6 at k = 5. -/
theorem rank_roundtrip_witness :
    (∃ t, pre (Numeral 5) = some t ∧ value (TypeNat.Suc t) = 5) ∧
      (pre (TypeNat.Suc (Numeral 5)) = some (Numeral 5) ∧
        value (Numeral 5) = 5) :=
  ⟨(rank_roundtrip 5).1 (by decide) (by decide),
   (rank_roundtrip 5).2 (by decide)⟩

/-- C7: for every length L in [1,32] and in-range index i, writing a
value through the mutable reference obtained from `us_index_mut` or from
`us_index_unchecked_mut` and then reading back at i, via either
`us_index` or `us_index_unchecked`, returns exactly the written value. -/
theorem write_read (L : Nat) (h1 : 1 ≤ L) (h2 : L ≤ 32) (a : IxStorage L)
(i : Nat) (hi : i < L) (v : Nat) :
    (∀ r, us_index_mut a i = some r →
      us_index (writeRef a r v) i = some v ∧
        us_index_unchecked (writeRef a r v) i hi = v) ∧
    (us_index (writeRef a (us_index_unchecked_mut a i hi) v) i = some v ∧
      us_index_unchecked (writeRef a (us_index_unchecked_mut a i hi) v)
        i hi = v) := by
  have hL : L ≠ 0 := by omega
  constructor
  · intro r hr
    have hr' : r = ⟨i, hi⟩ := by
      simpa [us_index_mut, hL, hi] using hr.symm
    subst hr'
    constructor
    · simp [us_index, hL, hi, writeRef]
    · simp [us_index_unchecked, writeRef]
  · constructor
    · simp [us_index, hL, hi, writeRef, us_index_unchecked_mut]
    · simp [us_index_unchecked, writeRef, us_index_unchecked_mut]

/-- Witness for C7 at L = 3, i = 2, v = 42, on the all-zero storage. -/
theorem write_read_witness :
    (1 ≤ 3 ∧ 3 ≤ 32 ∧ 2 < 3) ∧
      ((∀ r, us_index_mut (fun _ : Fin 3 => 0) 2 = some r →
        us_index (writeRef (fun _ : Fin 3 => 0) r 42) 2 = some 42 ∧
          us_index_unchecked (writeRef (fun _ : Fin 3 => 0) r 42) 2
            (by decide) = 42) ∧
      (us_index (writeRef (fun _ : Fin 3 => 0)
          (us_index_unchecked_mut (fun _ : Fin 3 => 0) 2 (by decide)) 42) 2 =
          some 42 ∧
        us_index_unchecked (writeRef (fun _ : Fin 3 => 0)
          (us_index_unchecked_mut (fun _ : Fin 3 => 0) 2 (by decide)) 42) 2
          (by decide) = 42)) :=
  ⟨by decide,
   write_read 3 (by decide) (by decide) (fun _ => 0) 2 (by decide) 42⟩

/-- C8: for every k in [0,32], the associated `IxArray` type of
`Numeral(k)` is a sequence of exactly k `usize` elements, and the length
is a function of the numeral type alone. -/
theorem ixarray_length (k : Nat) (hk : k ≤ 32) :
    ixArraySize (Numeral k) = k ∧ IxArray (Numeral k) = IxStorage k := by
  refine ⟨ixArraySize_numeral k, ?_⟩
  show IxStorage (ixArraySize (Numeral k)) = IxStorage k
  rw [ixArraySize_numeral]

/-- Witness for C8 at k = 5. -/
theorem ixarray_length_witness :
    5 ≤ 32 ∧ (ixArraySize (Numeral 5) = 5 ∧ IxArray (Numeral 5) = IxStorage 5) :=
  ⟨by decide, ixarray_length 5 (by decide)⟩

/-- C9: `Numeral(0)` has no predecessor: the `Pre` association is `none`
on `N0`, while for every k in [1,32] the predecessor of `Numeral(k)` is
defined. -/
theorem n0_no_pre :
    pre N0 = none ∧
      ∀ k, 1 ≤ k → k ≤ 32 → ∃ t, pre (Numeral k) = some t := by
  refine ⟨rfl, ?_⟩
  intro k h1 h2
  match k, h1 with
  | m + 1, _ => exact ⟨Numeral m, rfl⟩

/-- Witness for C9: the second conjunct applied at k = 1. -/
theorem n0_no_pre_witness :
    pre N0 = none ∧ ∃ t, pre (Numeral 1) = some t :=
  ⟨n0_no_pre.1, n0_no_pre.2 1 (by decide) (by decide)⟩

/-- C10: frame property. For every length L in [1,32], writing through
the mutable reference at an in-range index i, obtained from
`us_index_mut` or `us_index_unchecked_mut`, leaves every element at a
position j ≠ i unchanged. -/
theorem write_frame (L : Nat) (h1 : 1 ≤ L) (h2 : L ≤ 32) (a : IxStorage L)
(i : Nat) (hi : i < L) (v : Nat) (j : Nat) (hj : j < L) (hne : j ≠ i) :
    (∀ r, us_index_mut a i = some r →
      readAt (writeRef a r v) ⟨j, hj⟩ = readAt a ⟨j, hj⟩) ∧
    readAt (writeRef a (us_index_unchecked_mut a i hi) v) ⟨j, hj⟩ =
      readAt a ⟨j, hj⟩ := by
  have hL : L ≠ 0 := by omega
  have hfin : (⟨j, hj⟩ : Fin L) ≠ ⟨i, hi⟩ := by
    simp [Fin.ext_iff, hne]
  constructor
  · intro r hr
    have hr' : r = ⟨i, hi⟩ := by
      simpa [us_index_mut, hL, hi] using hr.symm
    subst hr'
    simp [readAt, writeRef, Function.update_noteq hfin]
  · simp [readAt, writeRef, us_index_unchecked_mut,
      Function.update_noteq hfin]

/-- Witness for C10 at L = 3, i = 2, j = 0, v = 42, on the storage
sending every slot to its position plus one. -/
theorem write_frame_witness :
    (1 ≤ 3 ∧ 3 ≤ 32 ∧ 2 < 3 ∧ 0 < 3 ∧ (0 : Nat) ≠ 2) ∧
      ((∀ r, us_index_mut (fun p : Fin 3 => p.val + 1) 2 = some r →
        readAt (writeRef (fun p : Fin 3 => p.val + 1) r 42) ⟨0, by decide⟩ =
          readAt (fun p : Fin 3 => p.val + 1) ⟨0, by decide⟩) ∧
      readAt (writeRef (fun p : Fin 3 => p.val + 1)
          (us_index_unchecked_mut (fun p : Fin 3 => p.val + 1) 2 (by decide))
          42) ⟨0, by decide⟩ =
        readAt (fun p : Fin 3 => p.val + 1) ⟨0, by decide⟩) :=
  ⟨by decide,
   write_frame 3 (by decide) (by decide) (fun p => p.val + 1) 2 (by decide)
     42 0 (by decide) (by decide)⟩

end MultiArray
